import Mathlib

/-!
Shallow embedding of `src/systemd/mod.rs` from the systemd-manager repository,
together with theorems settling the specification claims about it.

Strings are modelled as Lean `String`/`List Char`; Rust iterator pipelines are
translated to structural recursion over `List Char` so that every definition is
executable.  A Rust `panic!` (or `Option::unwrap` on `None`) aborts the process;
it is modelled by the `RunResult.crash` constructor carrying the panic message.
External effects (the file system and the `journalctl` child process) are
modelled as explicit function-valued parameters.
-/

/-- Outcome of running a Rust function that can panic: either a normal return
value, or an aborted execution carrying the panic message. -/
inductive RunResult (α : Type) where
  | ok (val : α)
  | crash (msg : String)
deriving Repr, DecidableEq

/-- The panic message produced by `Option::unwrap` on a `None` value. -/
def unwrapMsg : String := "called `Option::unwrap()` on a `None` value"

/-- The eleven unit types of `enum UnitType` in `src/systemd/mod.rs`. -/
inductive UnitType where
  | Automount | Busname | Mount | Path | Scope | Service
  | Slice | Socket | Swap | Target | Timer
deriving Repr, DecidableEq

/-- The nine unit states of `enum UnitState` in `src/systemd/mod.rs`. -/
inductive UnitState where
  | Bad | Disabled | Enabled | Generated | Indirect
  | Linked | Masked | Static | Transient
deriving Repr, DecidableEq

/-- Extend the first piece of a non-empty list of pieces with a leading
character (the empty list case cannot occur for `splitChar` results). -/
def consHead (c : Char) : List (List Char) → List (List Char)
  | [] => [[c]]
  | l :: ls => (c :: l) :: ls

/-- Split a character list at every occurrence of `sep`, keeping empty pieces:
the model of Rust `str::split(sep)` (always returns at least one piece). -/
def splitChar (sep : Char) : List Char → List (List Char)
  | [] => [[]]
  | c :: rest =>
    if c = sep then [] :: splitChar sep rest
    else consHead c (splitChar sep rest)

/-- Model of Rust `std::path::Path::file_name` for Unix paths: the final
path component, unless the path has no component or ends in `..`.  Empty
components (repeated or trailing `/`) and `.` components are skipped, which is
exactly how `Path::components` normalizes a Unix path for this purpose. -/
def file_name (p : String) : Option (List Char) :=
  let comps := (splitChar '/' p.data).filter (fun c => !(c == []) && !(c == ['.']))
  match comps.getLast? with
  | none => none
  | some last => if last = ['.', '.'] then none else some last

/-- Split a character list around its final `.`: returns
`some (before, after)` when a `.` occurs, `none` otherwise. -/
def extSplit : List Char → Option (List Char × List Char)
  | [] => none
  | c :: rest =>
    match extSplit rest with
    | some (b, a) => some (c :: b, a)
    | none => if c = '.' then some ([], rest) else none

/-- Model of Rust `std::path::Path::extension`: the portion of the file name
after its final `.`, or `none` when there is no file name, the file name holds
no `.`, or the file name begins with `.` and holds no other `.` (the `before`
part of the split being empty). -/
def extension (p : String) : Option String :=
  match file_name p with
  | none => none
  | some f =>
    match extSplit f with
    | none => none
    | some (b, a) => if b = [] then none else some (String.mk a)

/-- Embedding of `UnitType::new` (`src/systemd/mod.rs` lines 48-63): take the
extension of `pathname` (panicking via `unwrap` when there is none), and match
it case-sensitively against the eleven recognized suffixes, panicking with
`Unknown Type: {pathname}` on anything else. -/
def UnitType.new (pathname : String) : RunResult UnitType :=
  match extension pathname with
  | none => .crash unwrapMsg
  | some e =>
    if e = "automount" then .ok .Automount
    else if e = "busname" then .ok .Busname
    else if e = "mount" then .ok .Mount
    else if e = "path" then .ok .Path
    else if e = "scope" then .ok .Scope
    else if e = "service" then .ok .Service
    else if e = "slice" then .ok .Slice
    else if e = "socket" then .ok .Socket
    else if e = "swap" then .ok .Swap
    else if e = "target" then .ok .Target
    else if e = "timer" then .ok .Timer
    else .crash ("Unknown Type: " ++ pathname)

/-- Embedding of the iterator pipeline
`x.chars().skip(6).take_while(|x| *x != '\x22').next()` from
`UnitState::new`: the first character of the quoted payload, if any. -/
def firstPayloadChar (x : String) : Option Char :=
  ((x.data.drop 6).takeWhile (fun ch => ch != '\"')).head?

/-- Embedding of `UnitState::new` (`src/systemd/mod.rs` lines 71-84): skip the
first 6 characters of the raw dbus message, take the payload up to the closing
quote, and match its first character (panicking via `unwrap` when there is
none) against the nine discriminators, panicking with `Unknown State: {x}` on
anything else. -/
def UnitState.new (x : String) : RunResult UnitState :=
  match firstPayloadChar x with
  | none => .crash unwrapMsg
  | some c =>
    if c = 's' then .ok .Static
    else if c = 'd' then .ok .Disabled
    else if c = 'e' then .ok .Enabled
    else if c = 'i' then .ok .Indirect
    else if c = 'l' then .ok .Linked
    else if c = 'm' then .ok .Masked
    else if c = 'b' then .ok .Bad
    else if c = 'g' then .ok .Generated
    else if c = 't' then .ok .Transient
    else .crash ("Unknown State: " ++ x)

/-- Strip one trailing carriage return, as Rust `str::lines` does to each
piece produced by splitting at `\n`. -/
def stripCR (l : List Char) : List Char :=
  if l.getLast? = some '\r' then l.dropLast else l

/-- Drop a final empty piece, turning the model of `str::split` into the model
of `str::split_terminator`. -/
def dropFinalEmpty (ls : List (List Char)) : List (List Char) :=
  if ls.getLast? = some [] then ls.dropLast else ls

/-- Model of Rust `str::lines`: split at `\n` (a terminator, so a final empty
piece produced by a trailing newline is dropped) and strip one trailing `\r`
from each resulting line. -/
def rustLines (s : String) : List (List Char) :=
  (dropFinalEmpty (splitChar '\n' s.data)).map stripCR

/-- The literal prefix `Description=` scanned for by `get_unit_description`;
it is 12 ASCII characters (= 12 bytes) long. -/
def descKey : List Char := "Description=".data

/-- Embedding of `get_unit_description` (`src/systemd/mod.rs` lines 88-94):
find the first line starting with `Description=` and return everything after
that 12-byte prefix (`split_at(12).1`; the prefix is ASCII, so 12 bytes are
the first 12 characters). -/
def get_unit_description (info : String) : Option String :=
  ((rustLines info).find? (fun x => descKey.isPrefixOf x)).map
    (fun description => String.mk (description.drop 12))

/-- Abstract file system against which `SystemdUnit::get_info` runs.
`read path = none` models `File::open` failing; `read path = some none`
models `read_to_string` failing (I/O error or invalid UTF-8);
`read path = some (some c)` models a successful full read of contents `c`. -/
structure FileSystem where
  read : String → Option (Option String)

/-- Abstract `journalctl` invoker against which `SystemdUnit::get_journal`
runs. `run name = none` models `Command::output` failing;
`run name = some none` models stdout that is not valid UTF-8;
`run name = some (some s)` models captured UTF-8 stdout `s`. -/
structure JournalRunner where
  run : String → Option (Option String)

/-- The `SystemdUnit` struct of `src/systemd/mod.rs`. -/
structure SystemdUnit where
  name : String
  path : String
  state : UnitState
  utype : UnitType

/-- Embedding of `SystemdUnit::get_info` (`src/systemd/mod.rs` lines 20-32):
open the file at `self.path` and read it fully; on open failure the outer
`.ok().unwrap_or_default()` yields `""`, on read failure the inner
`.ok().unwrap_or_default()` yields `""`. -/
def SystemdUnit.get_info (self : SystemdUnit) (fs : FileSystem) : String :=
  ((fs.read self.path).map (fun r => r.getD "")).getD ""

/-- Embedding of `SystemdUnit::get_journal` (`src/systemd/mod.rs` lines
35-41): run `journalctl -b -r -u {name}`, decode stdout as UTF-8, and on any
failure return the formatted fallback message. -/
def SystemdUnit.get_journal (self : SystemdUnit) (jr : JournalRunner) : String :=
  ((jr.run self.name).bind (fun output => output)).getD
    ("Unable to read the journal entry for " ++ self.name ++ ".")

/-! ### Helper lemmas -/

theorem drop_eq_cons_of_getElem? {α : Type} {l : List α} {n : Nat} {c : α}
    (h : l[n]? = some c) : l.drop n = c :: l.drop (n + 1) := by
  obtain ⟨hlt, he⟩ := List.getElem?_eq_some_iff.mp h
  rw [List.drop_eq_getElem_cons hlt, he]

theorem firstPayloadChar_of_getElem? {x : String} {c : Char}
    (h : x.data[6]? = some c) (hq : c ≠ '\"') :
    firstPayloadChar x = some c := by
  unfold firstPayloadChar
  rw [drop_eq_cons_of_getElem? h, List.takeWhile_cons]
  simp [hq]

theorem unitState_new_of_payload {x : String} {c : Char}
    (h : firstPayloadChar x = some c) :
    UnitState.new x =
      (if c = 's' then .ok .Static
       else if c = 'd' then .ok .Disabled
       else if c = 'e' then .ok .Enabled
       else if c = 'i' then .ok .Indirect
       else if c = 'l' then .ok .Linked
       else if c = 'm' then .ok .Masked
       else if c = 'b' then .ok .Bad
       else if c = 'g' then .ok .Generated
       else if c = 't' then .ok .Transient
       else .crash ("Unknown State: " ++ x)) := by
  unfold UnitState.new
  rw [h]

theorem splitChar_ne_nil (sep : Char) (cs : List Char) : splitChar sep cs ≠ [] := by
  induction cs with
  | nil => simp [splitChar]
  | cons c rest ih =>
    by_cases hc : c = sep
    · simp [splitChar, hc]
    · simp only [splitChar, if_neg hc]
      cases hsp : splitChar sep rest <;> simp [consHead]

theorem mem_splitChar_not_sep (sep : Char) :
    ∀ (cs : List Char) (l : List Char), l ∈ splitChar sep cs → sep ∉ l := by
  intro cs
  induction cs with
  | nil =>
    intro l hl
    simp only [splitChar, List.mem_singleton] at hl
    subst hl
    simp
  | cons c rest ih =>
    intro l hl
    by_cases hc : c = sep
    · simp only [splitChar, if_pos hc, List.mem_cons] at hl
      rcases hl with rfl | hl
      · simp
      · exact ih l hl
    · simp only [splitChar, if_neg hc] at hl
      cases hsp : splitChar sep rest with
      | nil => exact absurd hsp (splitChar_ne_nil sep rest)
      | cons l0 ls =>
        rw [hsp] at hl
        simp only [consHead, List.mem_cons] at hl
        rcases hl with rfl | hl
        · intro hmem
          rcases List.mem_cons.mp hmem with rfl | hmem
          · exact hc rfl
          · exact ih l0 (hsp ▸ List.mem_cons_self l0 ls) hmem
        · exact ih l (hsp ▸ List.mem_cons_of_mem l0 hl)

theorem stripCR_subset (l : List Char) : stripCR l ⊆ l := by
  unfold stripCR
  split_ifs
  · exact List.dropLast_subset l
  · exact fun a h => h

theorem dropFinalEmpty_subset (ls : List (List Char)) : dropFinalEmpty ls ⊆ ls := by
  unfold dropFinalEmpty
  split_ifs
  · exact List.dropLast_subset ls
  · exact fun a h => h

theorem mem_rustLines_no_nl (s : String) (l : List Char)
    (h : l ∈ rustLines s) : '\n' ∉ l := by
  unfold rustLines at h
  rw [List.mem_map] at h
  obtain ⟨l0, hl0, rfl⟩ := h
  have hl0' : l0 ∈ splitChar '\n' s.data := dropFinalEmpty_subset _ hl0
  intro hin
  exact mem_splitChar_not_sep '\n' s.data l0 hl0' (stripCR_subset l0 hin)

theorem find?_eq_some_decomp {α : Type} (p : α → Bool) :
    ∀ (l : List α) (a : α), l.find? p = some a →
      ∃ l₁ l₂, l = l₁ ++ a :: l₂ ∧ (∀ x ∈ l₁, ¬ p x) ∧ p a := by
  intro l
  induction l with
  | nil => intro a h; simp [List.find?] at h
  | cons b t ih =>
    intro a h
    by_cases hb : p b
    · rw [List.find?_cons_of_pos _ hb] at h
      obtain rfl := Option.some.inj h
      exact ⟨[], t, rfl, by simp, hb⟩
    · rw [List.find?_cons_of_neg _ hb] at h
      obtain ⟨l₁, l₂, ht, h₁, h₂⟩ := ih a h
      refine ⟨b :: l₁, l₂, by rw [List.cons_append, ht], ?_, h₂⟩
      intro x hx
      rcases List.mem_cons.mp hx with rfl | hx
      · exact hb
      · exact h₁ x hx

/-! ### Sample values used by witnesses -/

/-- A concrete unit value used to instantiate theorems with hypotheses. -/
def sampleUnit : SystemdUnit :=
  { name := "sshd.service", path := "/etc/systemd/system/sshd.service",
    state := .Enabled, utype := .Service }

/-- A file system on which every read fails at the `File::open` stage. -/
def emptyFS : FileSystem := ⟨fun _ => none⟩

/-- A file system differing from `emptyFS` but agreeing with it on
`sampleUnit.path`. -/
def otherFS : FileSystem :=
  ⟨fun p => if p = "/tmp/other" then some (some "contents") else none⟩

/-- A journal runner on which every invocation fails. -/
def emptyJR : JournalRunner := ⟨fun _ => none⟩

/-- A journal runner differing from `emptyJR` but agreeing with it on
`sampleUnit.name`. -/
def otherJR : JournalRunner :=
  ⟨fun n => if n = "other.service" then some (some "log") else none⟩

/-! ### Claim theorems -/

/-- Claim C1: for every path string whose filename extension (in the sense of
`Path::extension`: the substring after the final `.` of the file name) is
exactly one of the eleven recognized suffixes, `UnitType::new` returns the
exactly corresponding `UnitType` variant, matched case-sensitively. -/
theorem spec_c1_unit_type_recognized (p : String) :
    (extension p = some "automount" → UnitType.new p = .ok .Automount) ∧
    (extension p = some "busname" → UnitType.new p = .ok .Busname) ∧
    (extension p = some "mount" → UnitType.new p = .ok .Mount) ∧
    (extension p = some "path" → UnitType.new p = .ok .Path) ∧
    (extension p = some "scope" → UnitType.new p = .ok .Scope) ∧
    (extension p = some "service" → UnitType.new p = .ok .Service) ∧
    (extension p = some "slice" → UnitType.new p = .ok .Slice) ∧
    (extension p = some "socket" → UnitType.new p = .ok .Socket) ∧
    (extension p = some "swap" → UnitType.new p = .ok .Swap) ∧
    (extension p = some "target" → UnitType.new p = .ok .Target) ∧
    (extension p = some "timer" → UnitType.new p = .ok .Timer) := by
  refine ⟨?_, ?_, ?_, ?_, ?_, ?_, ?_, ?_, ?_, ?_, ?_⟩ <;>
    (intro h; unfold UnitType.new; rw [h]; rfl)

/-- Claim C1 witness: a concrete service path is classified as `Service`. -/
theorem spec_c1_witness :
    extension "/etc/systemd/system/sshd.service" = some "service" ∧
    UnitType.new "/etc/systemd/system/sshd.service" = .ok .Service :=
  ⟨rfl, (spec_c1_unit_type_recognized "/etc/systemd/system/sshd.service").2.2.2.2.2.1 rfl⟩

/-- Claim C2: for every raw state message whose character at index 6 (the
expected payload offset after `skip(6)`) is one of the nine discriminators,
`UnitState::new` returns the exactly corresponding `UnitState`. -/
theorem spec_c2_unit_state_decoded (x : String) :
    (x.data[6]? = some 's' → UnitState.new x = .ok .Static) ∧
    (x.data[6]? = some 'd' → UnitState.new x = .ok .Disabled) ∧
    (x.data[6]? = some 'e' → UnitState.new x = .ok .Enabled) ∧
    (x.data[6]? = some 'i' → UnitState.new x = .ok .Indirect) ∧
    (x.data[6]? = some 'l' → UnitState.new x = .ok .Linked) ∧
    (x.data[6]? = some 'm' → UnitState.new x = .ok .Masked) ∧
    (x.data[6]? = some 'b' → UnitState.new x = .ok .Bad) ∧
    (x.data[6]? = some 'g' → UnitState.new x = .ok .Generated) ∧
    (x.data[6]? = some 't' → UnitState.new x = .ok .Transient) := by
  refine ⟨?_, ?_, ?_, ?_, ?_, ?_, ?_, ?_, ?_⟩ <;>
    (intro h; unfold UnitState.new;
     rw [firstPayloadChar_of_getElem? h (by decide)]; rfl)

/-- Claim C2 witness: the dbus-shaped message `   s "enabled"` decodes to
`Enabled` (its character at index 6 is `e`). -/
theorem spec_c2_witness :
    "   s \"enabled\"".data[6]? = some 'e' ∧
    UnitState.new "   s \"enabled\"" = .ok .Enabled :=
  ⟨rfl, (spec_c2_unit_state_decoded "   s \"enabled\"").2.2.1 rfl⟩

/-- Claim C3 evaluation: on an unrecognized extension, and on a path with no
extension, `UnitType::new` does not return a recoverable error value — it
aborts with a panic (modelled by `RunResult.crash` carrying the panic
message), contradicting the claimed recoverable `UnrecognizedUnitType`. -/
theorem spec_c3_classifier_panics :
    UnitType.new "foo.conf" = .crash "Unknown Type: foo.conf" ∧
    UnitType.new "foo" = .crash unwrapMsg :=
  ⟨rfl, rfl⟩

/-- Claim C4 evaluation: on a message too short to hold a payload, and on a
tenth discriminator, `UnitState::new` does not return a recoverable error
value — it aborts with a panic (modelled by `RunResult.crash` carrying the
panic message), contradicting the claimed recoverable
`UnrecognizedUnitState`. -/
theorem spec_c4_decoder_panics :
    UnitState.new "" = .crash unwrapMsg ∧
    UnitState.new "123456x" = .crash "Unknown State: 123456x" :=
  ⟨rfl, rfl⟩

set_option maxHeartbeats 1000000 in
/-- Claim C9: `UnitState::new` depends only on the character at index 6.  Any
two messages that both have a non-quote character at that index and agree on
it decode to the same `UnitState` — whenever one of them yields a state, the
other yields the same state. -/
theorem spec_c9_single_char_dependence (x y : String) (c : Char)
    (hx : x.data[6]? = some c) (hy : y.data[6]? = some c)
    (hq : c ≠ '\"') (s : UnitState) :
    UnitState.new x = .ok s ↔ UnitState.new y = .ok s := by
  rw [unitState_new_of_payload (firstPayloadChar_of_getElem? hx hq),
    unitState_new_of_payload (firstPayloadChar_of_getElem? hy hq)]
  split_ifs <;> exact Iff.rfl

/-- Claim C9 witness: two messages sharing only the character `e` at index 6
decode identically. -/
theorem spec_c9_witness :
    UnitState.new "   s \"enabled\"" = .ok .Enabled ↔
    UnitState.new "XXXXXXenabled-and-different-tail" = .ok .Enabled :=
  spec_c9_single_char_dependence "   s \"enabled\""
    "XXXXXXenabled-and-different-tail" 'e' rfl rfl (by decide) .Enabled

/-- Claim C5: `get_unit_description` scans lines in order and returns the
remainder after the 12-character prefix of the first line beginning with
`Description=`; when no line matches it returns `none`.  In particular it
returns `some "My Service"` on `"Name=foo\nDescription=My Service\n"` and
`none` on `"Name=foo\n"`. -/
theorem spec_c5_description_extraction (info : String) :
    (get_unit_description info = none ↔
      ∀ l ∈ rustLines info, ¬ descKey.isPrefixOf l) ∧
    (∀ s, get_unit_description info = some s →
      ∃ pre line suf, rustLines info = pre ++ line :: suf ∧
        (∀ l ∈ pre, ¬ descKey.isPrefixOf l) ∧ descKey.isPrefixOf line ∧
        s = String.mk (line.drop 12)) ∧
    get_unit_description "Name=foo\nDescription=My Service\n" = some "My Service" ∧
    get_unit_description "Name=foo\n" = none := by
  refine ⟨?_, ?_, by decide, by decide⟩
  · unfold get_unit_description
    rw [Option.map_eq_none', List.find?_eq_none]
  · intro s h
    unfold get_unit_description at h
    rw [Option.map_eq_some'] at h
    obtain ⟨d, hd, hs⟩ := h
    obtain ⟨pre, suf, hsplit, hpre, hp⟩ := find?_eq_some_decomp _ _ _ hd
    exact ⟨pre, d, suf, hsplit, hpre, hp, hs.symm⟩

/-- Claim C5 witness: on text with no matching line the extractor returns
`none`, via the characterization of the `none` case. -/
theorem spec_c5_witness : get_unit_description "Name=foo\nAfter=network.target\n" = none :=
  (spec_c5_description_extraction "Name=foo\nAfter=network.target\n").1.mpr (by decide)

/-- Claim C10: whenever `get_unit_description` returns `some s`, the string
`s` is the suffix of a scanned line after its first 12 characters, so it holds
no newline character; and a matching line that is exactly `Description=`
yields `some ""`, not `none`. -/
theorem spec_c10_result_shape :
    (∀ info s, get_unit_description info = some s → '\n' ∉ s.data) ∧
    get_unit_description "Description=" = some "" := by
  constructor
  · intro info s h
    unfold get_unit_description at h
    rw [Option.map_eq_some'] at h
    obtain ⟨d, hd, hs⟩ := h
    have hmem : d ∈ rustLines info := List.mem_of_find?_eq_some hd
    have hnl : '\n' ∉ d := mem_rustLines_no_nl info d hmem
    intro hin
    rw [← hs] at hin
    exact hnl (List.drop_subset 12 d hin)
  · decide

/-- Claim C10 witness: the extracted description of a concrete input holds no
newline. -/
theorem spec_c10_witness : '\n' ∉ "My Service".data :=
  spec_c10_result_shape.1 "Name=foo\nDescription=My Service\n" "My Service" (by decide)

/-- Claim C6: `get_info` is total and never propagates a failure: on any read
failure (open failure, or read/UTF-8 failure) it returns the empty string, and
on success it returns the file's full contents. -/
theorem spec_c6_get_info_best_effort (u : SystemdUnit) (fs : FileSystem) :
    (∀ c, fs.read u.path = some (some c) → u.get_info fs = c) ∧
    (fs.read u.path = none → u.get_info fs = "") ∧
    (fs.read u.path = some none → u.get_info fs = "") := by
  refine ⟨fun c h => ?_, fun h => ?_, fun h => ?_⟩ <;>
    (unfold SystemdUnit.get_info; rw [h]; rfl)

/-- Claim C6 witness: reading a missing file yields the empty string. -/
theorem spec_c6_witness : sampleUnit.get_info emptyFS = "" :=
  (spec_c6_get_info_best_effort sampleUnit emptyFS).2.1 rfl

/-- Claim C7: `get_journal` on invocation failure or non-UTF8 stdout returns
exactly the literal fallback naming the unit, and on success returns the
captured stdout. -/
theorem spec_c7_get_journal_fallback (u : SystemdUnit) (jr : JournalRunner) :
    (jr.run u.name = none →
      u.get_journal jr = "Unable to read the journal entry for " ++ u.name ++ ".") ∧
    (jr.run u.name = some none →
      u.get_journal jr = "Unable to read the journal entry for " ++ u.name ++ ".") ∧
    (∀ s, jr.run u.name = some (some s) → u.get_journal jr = s) := by
  refine ⟨fun h => ?_, fun h => ?_, fun s h => ?_⟩ <;>
    (unfold SystemdUnit.get_journal; rw [h]; rfl)

/-- Claim C7 witness: with the external tool unavailable, the fallback message
for `sshd.service` is returned. -/
theorem spec_c7_witness :
    sampleUnit.get_journal emptyJR =
      "Unable to read the journal entry for sshd.service." :=
  ((spec_c7_get_journal_fallback sampleUnit emptyJR).1 rfl).trans rfl

/-- Claim C8: `get_info` and `get_journal` are deterministic functions of the
unit and the external state: two calls against external states that agree at
the unit's path (respectively name) return identical strings. -/
theorem spec_c8_deterministic (u : SystemdUnit) (fs₁ fs₂ : FileSystem)
    (j₁ j₂ : JournalRunner) (hf : fs₁.read u.path = fs₂.read u.path)
    (hj : j₁.run u.name = j₂.run u.name) :
    u.get_info fs₁ = u.get_info fs₂ ∧ u.get_journal j₁ = u.get_journal j₂ := by
  unfold SystemdUnit.get_info SystemdUnit.get_journal
  rw [hf, hj]
  exact ⟨rfl, rfl⟩

/-- Claim C8 witness: two distinct external states agreeing at the sample
unit's path and name give identical results. -/
theorem spec_c8_witness :
    sampleUnit.get_info emptyFS = sampleUnit.get_info otherFS ∧
    sampleUnit.get_journal emptyJR = sampleUnit.get_journal otherJR :=
  spec_c8_deterministic sampleUnit emptyFS otherFS emptyJR otherJR rfl rfl
